import Mathlib

/-!
# The restic restore action (pkg/restore/restic_restore_action.go)

A shallow embedding of `ResticRestoreAction` and of the part of the Kubernetes pod
data model that its `Execute` method reads and writes, followed by the properties
of `AppliesTo`, `initContainerImage` and `Execute`.

Conventions of the embedding:

* a Go `map[string]string` is an association list of entries with `GoMap.insert`
  as the assignment `m[k] = v`; a `range` over a map visits the entries in an
  order chosen by a `RangeOrder`, which is some rearrangement of the entries;
* a Go `error` is a `GoError`, and a function returning `(T, error)` returns
  `Except GoError T`;
* the conversion between the unstructured and the typed form of a pod belongs to
  the Kubernetes library (`runtime.DefaultUnstructuredConverter`); it is a
  parameter of the embedding, and so is the type of unstructured content;
* logging has no effect on the result and is left out.
-/

set_option autoImplicit false

namespace ResticRestore

/-! ## Go values -/

/-- A Go error value: a plain error, or a cause wrapped with a message by `errors.Wrap`. -/
inductive GoError where
  | plain (msg : String)
  | wrap (cause : GoError) (msg : String)
  deriving DecidableEq, Repr

/-- The text of an error; `errors.Wrap` puts its message before the text of the cause. -/
def GoError.Error : GoError → String
  | .plain msg => msg
  | .wrap cause msg => msg ++ ": " ++ cause.Error

/-- The function `errors.Wrap` of github.com/pkg/errors. -/
def errors.Wrap (err : GoError) (message : String) : GoError :=
  GoError.wrap err message

/-- A Go `map[string]string`, as the list of its entries. -/
abbrev GoMap := List (String × String)

/-- The keys of a map. -/
def GoMap.keys (m : GoMap) : List String :=
  m.map Prod.fst

/-- The assignment `m[k] = v`: the value of an existing key is overwritten, a new
key gets a new entry. -/
def GoMap.insert (k v : String) : GoMap → GoMap
  | [] => [(k, v)]
  | (k', v') :: rest => if k' = k then (k, v) :: rest else (k', v') :: GoMap.insert k v rest

/-- The order in which a `range` statement visits the entries of a map: Go leaves
it unspecified, so it is any rearrangement of the entries. -/
structure RangeOrder where
  visit : GoMap → GoMap
  perm : ∀ m : GoMap, (visit m).Perm m

/-- The function `strings.HasPrefix`. -/
def strings.HasPrefix (s pre : String) : Bool :=
  pre.data.isPrefixOf s.data

/-- The slice expression `s[len(pre):]` for a prefix `pre` of `s`, where `n` is the
number of characters of `pre`: what is left of `s` after the prefix. -/
def sliceFrom (s : String) (n : Nat) : String :=
  String.mk (s.data.drop n)

/-! ## The pod data model (k8s.io/api/core/v1) -/

/-- The type `corev1.ObjectFieldSelector`. -/
structure ObjectFieldSelector where
  APIVersion : String := ""
  FieldPath : String := ""
  deriving DecidableEq, Repr

/-- The type `corev1.EnvVarSource`, with the field reference and, for the other
sources, the name of the referenced resource key. -/
structure EnvVarSource where
  FieldRef : Option ObjectFieldSelector := none
  ResourceFieldRef : Option String := none
  ConfigMapKeyRef : Option String := none
  SecretKeyRef : Option String := none
  deriving DecidableEq, Repr

/-- The type `corev1.EnvVar`. -/
structure EnvVar where
  Name : String := ""
  Value : String := ""
  ValueFrom : Option EnvVarSource := none
  deriving DecidableEq, Repr

/-- The type `corev1.VolumeMount`. -/
structure VolumeMount where
  Name : String := ""
  ReadOnly : Bool := false
  MountPath : String := ""
  SubPath : String := ""
  deriving DecidableEq, Repr

/-- The type `corev1.Container`: the fields `Execute` sets, and of the others the
command and the working directory. A field left out of a literal has its zero value. -/
structure Container where
  Name : String := ""
  Image : String := ""
  Command : List String := []
  Args : List String := []
  WorkingDir : String := ""
  Env : List EnvVar := []
  VolumeMounts : List VolumeMount := []
  deriving DecidableEq, Repr

/-- The type `corev1.Volume`, by its name. -/
structure Volume where
  Name : String := ""
  deriving DecidableEq, Repr

/-- The type `metav1.ObjectMeta`. -/
structure ObjectMeta where
  Name : String := ""
  Namespace : String := ""
  UID : String := ""
  Labels : GoMap := []
  Annotations : GoMap := []
  deriving DecidableEq, Repr

/-- The type `corev1.PodSpec`. -/
structure PodSpec where
  Volumes : List Volume := []
  InitContainers : List Container := []
  Containers : List Container := []
  NodeName : String := ""
  deriving DecidableEq, Repr

/-- The type `corev1.Pod`. -/
structure Pod where
  ObjectMeta : ObjectMeta := {}
  Spec : PodSpec := {}
  deriving DecidableEq, Repr

/-- The method `GetAnnotations` of a pod, seen as a `metav1.Object`. -/
def Pod.GetAnnotations (pod : Pod) : GoMap :=
  pod.ObjectMeta.Annotations

/-! ## The collaborators of the action -/

/-- The type `unstructured.Unstructured`: a wrapper of unstructured content. -/
structure Unstructured (σ : Type) where
  Object : σ
  deriving DecidableEq, Repr

/-- The method `UnstructuredContent`. -/
def Unstructured.UnstructuredContent {σ : Type} (u : Unstructured σ) : σ :=
  u.Object

/-- The type `api.Restore`, by the UID of its metadata. -/
structure Restore where
  UID : String := ""
  deriving DecidableEq, Repr

/-- The type `velero.RestoreItemActionExecuteInput`. -/
structure RestoreItemActionExecuteInput (σ : Type) where
  Item : Unstructured σ
  Restore : Restore
  deriving DecidableEq, Repr

/-- Modelled from the spec: the declaration of `velero.RestoreItemActionExecuteOutput`
is in pkg/plugin/velero, which is not among the sources. Spec 4.2, step 6: the
result is the manifest to apply, with no deferred callback and no additional
resources to create, so the output holds the updated item and nothing else. -/
structure RestoreItemActionExecuteOutput (σ : Type) where
  UpdatedItem : Unstructured σ
  deriving DecidableEq, Repr

/-- Modelled from the spec: `velero.NewRestoreItemActionExecuteOutput` is declared
in pkg/plugin/velero, which is not among the sources. Spec 4.2, step 6: it returns
the given manifest, to be applied as it is. -/
def NewRestoreItemActionExecuteOutput {σ : Type} (item : Unstructured σ) :
    RestoreItemActionExecuteOutput σ :=
  { UpdatedItem := item }

/-- Modelled from the spec: the declaration of `velero.ResourceSelector` is in
pkg/plugin/velero, which is not among the sources. Spec 4.1 and 6: a static
declaration of the eligible resource kinds; the selector holds the included and
excluded namespaces and resources and a label selector, all empty unless set. -/
structure ResourceSelector where
  IncludedNamespaces : List String := []
  ExcludedNamespaces : List String := []
  IncludedResources : List String := []
  ExcludedResources : List String := []
  LabelSelector : String := ""
  deriving DecidableEq, Repr

/-- What `Execute` uses and the source file does not define: the converter of the
Kubernetes library between unstructured content and typed pods, the reserved
annotation key prefix of pkg/restic, and the order of a `range` over a map. -/
structure Env (σ : Type) where
  FromUnstructured : σ → Except GoError Pod
  ToUnstructured : Pod → Except GoError σ
  podAnnotationPrefix : String
  range : RangeOrder

/-- Modelled from the spec: the constant `restic.InitContainer` is declared in
pkg/restic, which is not among the sources. Spec 3 and 8: the helper has a
reserved, constant name, "restic-wait". -/
def restic.InitContainer : String := "restic-wait"

/-- Modelled from the spec: `restic.GetPodSnapshotAnnotations` is declared in
pkg/restic, which is not among the sources. Spec 3 and 6: the snapshot annotation
set is a mapping from volume name to snapshot identifier, derived from the
annotations whose key is under a reserved key prefix; only keys under that prefix
are read, the volume name is the key without the prefix (spec 8: the annotation
`volumes.snapshot/data=snap-123` is the snapshot of the volume "data"), and the
snapshot identifier is not validated. -/
def restic.GetPodSnapshotAnnotations (podAnnotationPrefix : String) (range : RangeOrder)
    (obj : Pod) : GoMap :=
  (range.visit obj.GetAnnotations).foldl
    (fun res kv =>
      if strings.HasPrefix kv.1 podAnnotationPrefix
      then GoMap.insert (sliceFrom kv.1 podAnnotationPrefix.length) kv.2 res
      else res)
    []

/-! ## The action -/

/-- The type `ResticRestoreAction`, without its logger. -/
structure ResticRestoreAction where
  initContainerImage : String
  deriving DecidableEq, Repr

/-- The function `initContainerImage`; the parameter is `buildinfo.Version`. -/
def initContainerImage (Version : String) : String :=
  let tag := Version
  let tag := if tag = "" then "latest" else tag
  "gcr.io/heptio-images/velero-restic-restore-helper:" ++ tag

/-- The function `NewResticRestoreAction`; the parameter is `buildinfo.Version`. -/
def NewResticRestoreAction (Version : String) : ResticRestoreAction :=
  { initContainerImage := initContainerImage Version }

/-- The method `AppliesTo`. -/
def ResticRestoreAction.AppliesTo (_a : ResticRestoreAction) : Except GoError ResourceSelector :=
  .ok { IncludedResources := ["pods"] }

/-- Lines 106 to 109 of `Execute`: the volume mount of one volume name. -/
def restoreMount (volumeName : String) : VolumeMount :=
  { Name := volumeName, MountPath := "/restores/" ++ volumeName }

/-- Lines 81 to 111 of `Execute`: the init container literal, then one volume mount
appended for each entry visited by the `range` over the volume snapshots. -/
def buildInitContainer (a : ResticRestoreAction) (restoreUID : String) (visited : GoMap) :
    Container :=
  let initContainer : Container :=
    { Name := restic.InitContainer
      Image := a.initContainerImage
      Args := [restoreUID]
      Env :=
        [ { Name := "POD_NAMESPACE"
            ValueFrom := some { FieldRef := some { FieldPath := "metadata.namespace" } } },
          { Name := "POD_NAME"
            ValueFrom := some { FieldRef := some { FieldPath := "metadata.name" } } } ] }
  visited.foldl
    (fun initContainer kv =>
      let volumeName := kv.1
      let mount := restoreMount volumeName
      { initContainer with VolumeMounts := initContainer.VolumeMounts ++ [mount] })
    initContainer

/-- Lines 113 to 117 of `Execute`: the init container is put in front of the init
containers, or written over the first of them when that one is named "restic-wait". -/
def placeInitContainer (pod : Pod) (initContainer : Container) : Pod :=
  if pod.Spec.InitContainers.length = 0 ∨
      (pod.Spec.InitContainers.head?.map Container.Name) ≠ some "restic-wait" then
    { pod with Spec := { pod.Spec with InitContainers := [initContainer] ++ pod.Spec.InitContainers } }
  else
    { pod with Spec := { pod.Spec with InitContainers := pod.Spec.InitContainers.set 0 initContainer } }

/-- Lines 119 to 124 of `Execute`: the pod is converted back to unstructured content
and returned as the updated item; a failure of the conversion is wrapped. -/
def encodeOutput {σ : Type} (env : Env σ) (pod : Pod) :
    Except GoError (RestoreItemActionExecuteOutput σ) :=
  match env.ToUnstructured pod with
  | .error err => .error (errors.Wrap err "unable to convert pod to runtime.Unstructured")
  | .ok res => .ok (NewRestoreItemActionExecuteOutput { Object := res })

/-- The method `Execute`. -/
def ResticRestoreAction.Execute {σ : Type} (env : Env σ) (a : ResticRestoreAction)
    (input : RestoreItemActionExecuteInput σ) :
    Except GoError (RestoreItemActionExecuteOutput σ) :=
  match env.FromUnstructured input.Item.UnstructuredContent with
  | .error err => .error (errors.Wrap err "unable to convert pod from runtime.Unstructured")
  | .ok pod =>
    let volumeSnapshots := restic.GetPodSnapshotAnnotations env.podAnnotationPrefix env.range pod
    if volumeSnapshots.length = 0 then
      .ok (NewRestoreItemActionExecuteOutput input.Item)
    else
      let initContainer :=
        buildInitContainer a input.Restore.UID (env.range.visit volumeSnapshots)
      let pod := placeInitContainer pod initContainer
      encodeOutput env pod

/-! ## Vocabulary of the statements -/

/-- The snapshot annotation set of a pod, as `Execute` reads it. -/
def Env.snapshots {σ : Type} (env : Env σ) (pod : Pod) : GoMap :=
  restic.GetPodSnapshotAnnotations env.podAnnotationPrefix env.range pod

/-- The helper init container `Execute` builds for a pod and a restore identifier. -/
def Env.helper {σ : Type} (env : Env σ) (a : ResticRestoreAction) (restoreUID : String)
    (pod : Pod) : Container :=
  buildInitContainer a restoreUID (env.range.visit (env.snapshots pod))

/-- The pod `Execute` converts back to unstructured content when the pod has
snapshot annotations. -/
def Env.mutated {σ : Type} (env : Env σ) (a : ResticRestoreAction) (restoreUID : String)
    (pod : Pod) : Pod :=
  placeInitContainer pod (env.helper a restoreUID pod)

/-- The init containers of a pod that `Execute` keeps: all of them, or all but the
first when the first is named "restic-wait". -/
def keptInitContainers (pod : Pod) : List Container :=
  if pod.Spec.InitContainers.head?.map Container.Name = some "restic-wait" then
    pod.Spec.InitContainers.tail
  else
    pod.Spec.InitContainers

/-- The number of init containers of a list that bear the reserved helper name. -/
def helperCount (cs : List Container) : Nat :=
  cs.countP (fun c => c.Name = "restic-wait")

/-! ## Concrete inputs -/

/-- A range order visiting the entries as they are listed. -/
def listedOrder : RangeOrder :=
  { visit := fun m => m, perm := fun m => List.Perm.refl m }

/-- A range order visiting the entries in the reverse of the listed order. -/
def reverseOrder : RangeOrder :=
  { visit := fun m => m.reverse, perm := fun m => List.reverse_perm m }

/-- An environment whose unstructured content is the pod itself. -/
def idEnv : Env Pod :=
  { FromUnstructured := fun u => .ok u
    ToUnstructured := fun pod => .ok pod
    podAnnotationPrefix := "volumes.snapshot/"
    range := listedOrder }

/-- The pod ns/demo of the spec's scenario, annotated for the volume "data". -/
def demoPod : Pod :=
  { ObjectMeta :=
      { Name := "demo", Namespace := "ns", Annotations := [("volumes.snapshot/data", "snap-123")] } }

/-- The action of a build without version information. -/
def demoAction : ResticRestoreAction := NewResticRestoreAction ""

/-- A pod without annotations whose only init container is already named "restic-wait". -/
def plainPod : Pod :=
  { ObjectMeta := { Name := "plain", Namespace := "ns" }
    Spec := { InitContainers := [{ Name := "restic-wait", Image := "old", Args := ["restore-1"] }] } }

/-- The pod ns/demo with two unrelated init containers. -/
def demoPodWithInits : Pod :=
  { demoPod with Spec := { InitContainers := [{ Name := "setup" }, { Name := "migrate" }] } }

/-- The pod ns/demo carrying a stale helper of an earlier restore and one more init container. -/
def demoPodWithHelper : Pod :=
  { demoPod with Spec := { InitContainers :=
      [{ Name := "restic-wait", Image := "old", Args := ["restore-1"] }, { Name := "setup" }] } }

/-- The pod ns/demo with an init container named "restic-wait" that is not the first. -/
def demoPodLateHelper : Pod :=
  { demoPod with Spec := { InitContainers := [{ Name := "setup" }, { Name := "restic-wait" }] } }

/-- The pod ns/demo annotated for the two volumes "data" and "logs", among other annotations. -/
def demoPodTwoVolumes : Pod :=
  { ObjectMeta :=
      { Name := "demo", Namespace := "ns"
        Annotations :=
          [("volumes.snapshot/data", "snap-123"), ("owner", "team-a"),
            ("volumes.snapshot/logs", "snap-456")] } }

/-- An environment whose converter refuses to decode any manifest carrying a label
and to encode any pod that has a node name, and whose `range` runs in reverse. -/
def strictEnv : Env Pod :=
  { FromUnstructured := fun u =>
      if u.ObjectMeta.Labels = [] then .ok u else .error (.plain "labels are not supported")
    ToUnstructured := fun pod =>
      if pod.Spec.NodeName = "" then .ok pod else .error (.plain "node name is set")
    podAnnotationPrefix := "volumes.snapshot/"
    range := reverseOrder }

/-- A pod with a label and no annotation: `strictEnv` does not decode it. -/
def labelledPod : Pod :=
  { ObjectMeta := { Name := "web", Namespace := "ns", Labels := [("app", "web")] } }

/-- The pod ns/demo bound to a node: `strictEnv` decodes it and does not encode it. -/
def boundPod : Pod :=
  { demoPod with Spec := { NodeName := "node-1" } }

/-! ## Lemmas on the building blocks -/

theorem buildInitContainer_foldl (visited : GoMap) (c : Container) :
    visited.foldl
      (fun initContainer kv =>
        let volumeName := kv.1
        let mount := restoreMount volumeName
        { initContainer with VolumeMounts := initContainer.VolumeMounts ++ [mount] }) c
      = { c with VolumeMounts := c.VolumeMounts ++ visited.map (fun kv => restoreMount kv.1) } := by
  induction visited generalizing c with
  | nil => simp
  | cons kv rest ih => simp [List.foldl_cons, ih]

theorem buildInitContainer_eq (a : ResticRestoreAction) (restoreUID : String) (visited : GoMap) :
    buildInitContainer a restoreUID visited =
      { Name := "restic-wait"
        Image := a.initContainerImage
        Args := [restoreUID]
        Env :=
          [ { Name := "POD_NAMESPACE"
              ValueFrom := some { FieldRef := some { FieldPath := "metadata.namespace" } } },
            { Name := "POD_NAME"
              ValueFrom := some { FieldRef := some { FieldPath := "metadata.name" } } } ]
        VolumeMounts := visited.map (fun kv => restoreMount kv.1) } := by
  unfold buildInitContainer
  simp only [buildInitContainer_foldl]
  simp [restic.InitContainer]

theorem execute_of_snapshots {σ : Type} (env : Env σ) (a : ResticRestoreAction)
    (input : RestoreItemActionExecuteInput σ) (pod : Pod)
    (hdec : env.FromUnstructured input.Item.UnstructuredContent = .ok pod)
    (hne : env.snapshots pod ≠ []) :
    a.Execute env input = encodeOutput env (env.mutated a input.Restore.UID pod) := by
  unfold ResticRestoreAction.Execute
  rw [hdec]
  have hlen : ¬ (restic.GetPodSnapshotAnnotations env.podAnnotationPrefix env.range pod).length = 0 := by
    intro h
    exact hne (List.length_eq_zero.mp h)
  simp only [hlen, if_false]
  rfl

theorem execute_of_no_snapshots {σ : Type} (env : Env σ) (a : ResticRestoreAction)
    (input : RestoreItemActionExecuteInput σ) (pod : Pod)
    (hdec : env.FromUnstructured input.Item.UnstructuredContent = .ok pod)
    (hempty : env.snapshots pod = []) :
    a.Execute env input = .ok { UpdatedItem := input.Item } := by
  unfold ResticRestoreAction.Execute
  rw [hdec]
  have hlen : (restic.GetPodSnapshotAnnotations env.podAnnotationPrefix env.range pod).length = 0 := by
    have h : restic.GetPodSnapshotAnnotations env.podAnnotationPrefix env.range pod = [] := hempty
    rw [h]; rfl
  simp only [hlen, if_true]
  rfl

theorem placeInitContainer_prepend (pod : Pod) (c : Container)
    (hfirst : ∀ first, pod.Spec.InitContainers.head? = some first → first.Name ≠ "restic-wait") :
    (placeInitContainer pod c).Spec.InitContainers = c :: pod.Spec.InitContainers := by
  unfold placeInitContainer
  cases hcs : pod.Spec.InitContainers with
  | nil => simp
  | cons first rest =>
    have h := hfirst first (by simp [hcs])
    simp [h]

theorem placeInitContainer_replace (pod : Pod) (c : Container)
    (hfirst : pod.Spec.InitContainers.head?.map Container.Name = some "restic-wait") :
    (placeInitContainer pod c).Spec.InitContainers = c :: pod.Spec.InitContainers.tail := by
  unfold placeInitContainer
  cases hcs : pod.Spec.InitContainers with
  | nil => simp [hcs] at hfirst
  | cons first rest =>
    have h : first.Name = "restic-wait" := by simpa [hcs] using hfirst
    simp [h]

theorem placeInitContainer_kept (pod : Pod) (c : Container) :
    (placeInitContainer pod c).Spec.InitContainers = c :: keptInitContainers pod := by
  unfold keptInitContainers
  by_cases h : pod.Spec.InitContainers.head?.map Container.Name = some "restic-wait"
  · rw [if_pos h]
    exact placeInitContainer_replace pod c h
  · rw [if_neg h]
    apply placeInitContainer_prepend
    intro first hfirst hname
    apply h
    rw [hfirst]
    simp [hname]

theorem helper_name {σ : Type} (env : Env σ) (a : ResticRestoreAction) (restoreUID : String)
    (pod : Pod) : (env.helper a restoreUID pod).Name = "restic-wait" := by
  unfold Env.helper
  rw [buildInitContainer_eq]

theorem helper_args {σ : Type} (env : Env σ) (a : ResticRestoreAction) (restoreUID : String)
    (pod : Pod) : (env.helper a restoreUID pod).Args = [restoreUID] := by
  unfold Env.helper
  rw [buildInitContainer_eq]

theorem helper_mounts {σ : Type} (env : Env σ) (a : ResticRestoreAction) (restoreUID : String)
    (pod : Pod) :
    (env.helper a restoreUID pod).VolumeMounts
      = (env.range.visit (env.snapshots pod)).map (fun kv => restoreMount kv.1) := by
  unfold Env.helper
  rw [buildInitContainer_eq]

theorem visit_length (range : RangeOrder) (m : GoMap) : (range.visit m).length = m.length :=
  (range.perm m).length_eq

theorem placeInitContainer_eq (pod : Pod) (c : Container) :
    placeInitContainer pod c
      = { pod with Spec := { pod.Spec with InitContainers := c :: keptInitContainers pod } } := by
  have h := placeInitContainer_kept pod c
  have hmeta : (placeInitContainer pod c).ObjectMeta = pod.ObjectMeta := by
    unfold placeInitContainer
    split <;> rfl
  have hvol : (placeInitContainer pod c).Spec.Volumes = pod.Spec.Volumes := by
    unfold placeInitContainer
    split <;> rfl
  have hcon : (placeInitContainer pod c).Spec.Containers = pod.Spec.Containers := by
    unfold placeInitContainer
    split <;> rfl
  have hnode : (placeInitContainer pod c).Spec.NodeName = pod.Spec.NodeName := by
    unfold placeInitContainer
    split <;> rfl
  cases hp : placeInitContainer pod c with
  | mk om spec =>
    cases spec with
    | mk vols inits cons node =>
      rw [hp] at h hmeta hvol hcon hnode
      simp only at h hmeta hvol hcon hnode
      subst h hmeta hvol hcon hnode
      rfl

theorem snapshots_placeInitContainer {σ : Type} (env : Env σ) (pod : Pod) (c : Container) :
    env.snapshots (placeInitContainer pod c) = env.snapshots pod := by
  rw [placeInitContainer_eq]
  rfl

theorem keptInitContainers_placeInitContainer (pod : Pod) (c : Container)
    (hname : c.Name = "restic-wait") :
    keptInitContainers (placeInitContainer pod c) = keptInitContainers pod := by
  rw [placeInitContainer_eq]
  simp [keptInitContainers, hname]

theorem mutated_mutated {σ : Type} (env : Env σ) (a : ResticRestoreAction) (id1 id2 : String)
    (pod : Pod) : env.mutated a id2 (env.mutated a id1 pod) = env.mutated a id2 pod := by
  have hsnap : env.snapshots (env.mutated a id1 pod) = env.snapshots pod :=
    snapshots_placeInitContainer env pod _
  have hhelper : env.helper a id2 (env.mutated a id1 pod) = env.helper a id2 pod := by
    unfold Env.helper
    rw [hsnap]
  have hkept : keptInitContainers (env.mutated a id1 pod) = keptInitContainers pod :=
    keptInitContainers_placeInitContainer pod _ (helper_name env a id1 pod)
  have hstep : env.mutated a id2 (env.mutated a id1 pod)
      = placeInitContainer (env.mutated a id1 pod) (env.helper a id2 pod) := by
    rw [← hhelper]
    rfl
  rw [hstep, placeInitContainer_eq, hkept]
  unfold Env.mutated
  rw [placeInitContainer_eq, placeInitContainer_eq]

theorem insert_keys (k v : String) (m : GoMap) :
    (GoMap.insert k v m).keys = if k ∈ m.keys then m.keys else m.keys ++ [k] := by
  induction m with
  | nil => simp [GoMap.insert, GoMap.keys]
  | cons kv rest ih =>
    obtain ⟨k', v'⟩ := kv
    unfold GoMap.insert
    by_cases h : k' = k
    · subst h
      simp [GoMap.keys]
    · have h' : ¬ k = k' := fun e => h e.symm
      rw [if_neg h]
      simp only [GoMap.keys, List.map_cons, List.mem_cons, h', false_or] at ih ⊢
      rw [ih]
      split <;> simp

theorem insert_keys_nodup (k v : String) (m : GoMap) (h : m.keys.Nodup) :
    (GoMap.insert k v m).keys.Nodup := by
  rw [insert_keys]
  split
  · exact h
  · rename_i hk
    rw [List.nodup_append]
    refine ⟨h, List.nodup_singleton k, ?_⟩
    intro x hx hx'
    rw [List.mem_singleton] at hx'
    subst hx'
    exact hk hx

theorem snapshots_foldl_nodup (pre : String) (entries acc : GoMap) (h : acc.keys.Nodup) :
    (entries.foldl
      (fun res kv =>
        if strings.HasPrefix kv.1 pre
        then GoMap.insert (sliceFrom kv.1 pre.length) kv.2 res
        else res) acc).keys.Nodup := by
  induction entries generalizing acc with
  | nil => exact h
  | cons kv rest ih =>
    rw [List.foldl_cons]
    apply ih
    split
    · exact insert_keys_nodup _ _ _ h
    · exact h

theorem snapshots_keys_nodup {σ : Type} (env : Env σ) (pod : Pod) :
    (env.snapshots pod).keys.Nodup := by
  unfold Env.snapshots restic.GetPodSnapshotAnnotations
  exact snapshots_foldl_nodup _ _ [] List.nodup_nil

theorem visit_keys_perm (range : RangeOrder) (m : GoMap) :
    (range.visit m).keys.Perm m.keys :=
  (range.perm m).map Prod.fst

theorem filter_mounts_of_mem (names : List String) (v : String) (hnodup : names.Nodup)
    (hv : v ∈ names) :
    (names.map restoreMount).filter (fun m => m.Name = v) = [restoreMount v] := by
  induction names with
  | nil => cases hv
  | cons n rest ih =>
    rw [List.nodup_cons] at hnodup
    by_cases hn : n = v
    · subst hn
      have hrest : (rest.map restoreMount).filter (fun m => m.Name = n) = [] := by
        rw [List.filter_eq_nil_iff]
        intro m hm
        rw [List.mem_map] at hm
        obtain ⟨x, hx, rfl⟩ := hm
        have hne : x ≠ n := fun e => hnodup.1 (e ▸ hx)
        simpa [restoreMount] using hne
      simp [List.filter_cons, restoreMount, hrest]
    · have hv' : v ∈ rest := by
        rcases List.mem_cons.mp hv with h | h
        · exact absurd h.symm hn
        · exact h
      simp [List.filter_cons, restoreMount, hn]
      simpa [restoreMount] using ih hnodup.2 hv'

theorem helper_eq {σ : Type} (env : Env σ) (a : ResticRestoreAction) (restoreUID : String)
    (pod : Pod) :
    env.helper a restoreUID pod =
      { Name := "restic-wait"
        Image := a.initContainerImage
        Args := [restoreUID]
        Env :=
          [ { Name := "POD_NAMESPACE"
              ValueFrom := some { FieldRef := some { FieldPath := "metadata.namespace" } } },
            { Name := "POD_NAME"
              ValueFrom := some { FieldRef := some { FieldPath := "metadata.name" } } } ]
        VolumeMounts := (env.range.visit (env.snapshots pod)).map (fun kv => restoreMount kv.1) } := by
  unfold Env.helper
  rw [buildInitContainer_eq]

theorem mutated_head {σ : Type} (env : Env σ) (a : ResticRestoreAction) (restoreUID : String)
    (pod : Pod) :
    (env.mutated a restoreUID pod).Spec.InitContainers.head? = some (env.helper a restoreUID pod) := by
  unfold Env.mutated
  rw [placeInitContainer_kept]
  rfl

theorem append_left_cancel_string (p v1 v2 : String) (h : p ++ v1 = p ++ v2) : v1 = v2 := by
  have hdata := congrArg String.data h
  rw [String.data_append, String.data_append] at hdata
  exact String.ext (List.append_cancel_left hdata)

theorem restoreMount_path_injective :
    Function.Injective (fun v => (restoreMount v).MountPath) := by
  intro v1 v2 h
  exact append_left_cancel_string "/restores/" v1 v2 h

theorem buildInitContainer_mounts (a : ResticRestoreAction) (restoreUID : String)
    (visited : GoMap) :
    (buildInitContainer a restoreUID visited).VolumeMounts = visited.keys.map restoreMount := by
  rw [buildInitContainer_eq, GoMap.keys, List.map_map]
  rfl

theorem execute_ok_iff {σ : Type} (env : Env σ) (a : ResticRestoreAction)
    (input : RestoreItemActionExecuteInput σ) (pod : Pod)
    (hdec : env.FromUnstructured input.Item.UnstructuredContent = .ok pod)
    (hne : env.snapshots pod ≠ []) (out : RestoreItemActionExecuteOutput σ) :
    a.Execute env input = .ok out ↔
      env.ToUnstructured (env.mutated a input.Restore.UID pod) = .ok out.UpdatedItem.Object := by
  rw [execute_of_snapshots env a input pod hdec hne]
  unfold encodeOutput
  cases henc : env.ToUnstructured (env.mutated a input.Restore.UID pod) with
  | error cause =>
    simp only
    constructor <;> intro h <;> cases h
  | ok res =>
    simp only
    constructor
    · intro h
      cases h
      rfl
    · intro h
      obtain ⟨⟨obj⟩⟩ := out
      cases h
      rfl

theorem execute_output_decodes {σ : Type} (env : Env σ) (a : ResticRestoreAction)
    (input : RestoreItemActionExecuteInput σ) (pod : Pod)
    (hdec : env.FromUnstructured input.Item.UnstructuredContent = .ok pod)
    (hne : env.snapshots pod ≠ [])
    (hround : ∀ p res, env.ToUnstructured p = .ok res → env.FromUnstructured res = .ok p)
    (out : RestoreItemActionExecuteOutput σ) (hout : a.Execute env input = .ok out) :
    env.FromUnstructured out.UpdatedItem.UnstructuredContent
      = .ok (env.mutated a input.Restore.UID pod) :=
  hround _ _ ((execute_ok_iff env a input pod hdec hne out).mp hout)

/-! ## The claims -/

/-- C1: when the manifest decodes to a pod whose snapshot annotation set is empty,
`Execute` succeeds and returns the input manifest itself, whatever the init
containers of the pod and whatever the restore identifier. -/
theorem execute_returns_input_without_snapshots {σ : Type} (env : Env σ)
    (a : ResticRestoreAction) (input : RestoreItemActionExecuteInput σ) (pod : Pod)
    (hdec : env.FromUnstructured input.Item.UnstructuredContent = .ok pod)
    (hempty : env.snapshots pod = []) :
    a.Execute env input = .ok { UpdatedItem := input.Item } :=
  execute_of_no_snapshots env a input pod hdec hempty

theorem execute_returns_input_without_snapshots_witness :
    idEnv.FromUnstructured plainPod = .ok plainPod ∧ idEnv.snapshots plainPod = [] ∧
    demoAction.Execute idEnv { Item := { Object := plainPod }, Restore := { UID := "restore-7" } }
      = .ok { UpdatedItem := { Object := plainPod } } :=
  ⟨rfl, rfl,
    execute_returns_input_without_snapshots idEnv demoAction
      { Item := { Object := plainPod }, Restore := { UID := "restore-7" } } plainPod rfl rfl⟩

/-- C2: when the pod has snapshot annotations and its first init container, if any,
is not named "restic-wait", `Execute` returns a manifest exactly when the converter
encodes the mutated pod, and the manifest it returns is that encoding; the mutated
pod has the helper first, followed by the N original init containers unchanged and
in order, N+1 in all; with a converter that decodes what it encoded, the returned
manifest decodes to a pod with these N+1 init containers. -/
theorem execute_prepends_helper {σ : Type} (env : Env σ)
    (a : ResticRestoreAction) (input : RestoreItemActionExecuteInput σ) (pod : Pod)
    (hdec : env.FromUnstructured input.Item.UnstructuredContent = .ok pod)
    (hne : env.snapshots pod ≠ [])
    (hfirst : ∀ first, pod.Spec.InitContainers.head? = some first → first.Name ≠ "restic-wait") :
    (∀ out, a.Execute env input = .ok out ↔
      env.ToUnstructured (env.mutated a input.Restore.UID pod) = .ok out.UpdatedItem.Object) ∧
    (env.mutated a input.Restore.UID pod).Spec.InitContainers
      = env.helper a input.Restore.UID pod :: pod.Spec.InitContainers ∧
    (env.mutated a input.Restore.UID pod).Spec.InitContainers.length
      = pod.Spec.InitContainers.length + 1 ∧
    (env.helper a input.Restore.UID pod).Name = restic.InitContainer ∧
    ((∀ p res, env.ToUnstructured p = .ok res → env.FromUnstructured res = .ok p) →
      ∀ out, a.Execute env input = .ok out →
        ∃ pod', env.FromUnstructured out.UpdatedItem.UnstructuredContent = .ok pod' ∧
          pod'.Spec.InitContainers = env.helper a input.Restore.UID pod :: pod.Spec.InitContainers ∧
          pod'.Spec.InitContainers.length = pod.Spec.InitContainers.length + 1) := by
  have hplace := placeInitContainer_prepend pod (env.helper a input.Restore.UID pod) hfirst
  have hm : (env.mutated a input.Restore.UID pod).Spec.InitContainers
      = env.helper a input.Restore.UID pod :: pod.Spec.InitContainers := hplace
  have hlen : (env.mutated a input.Restore.UID pod).Spec.InitContainers.length
      = pod.Spec.InitContainers.length + 1 := by
    rw [hm]
    rfl
  refine ⟨fun out => execute_ok_iff env a input pod hdec hne out, hm, hlen, ?_, ?_⟩
  · rw [helper_name]
    rfl
  · intro hround out hout
    exact ⟨_, execute_output_decodes env a input pod hdec hne hround out hout, hm, hlen⟩

theorem execute_prepends_helper_witness :
    idEnv.FromUnstructured demoPodWithInits = .ok demoPodWithInits ∧
    idEnv.snapshots demoPodWithInits ≠ [] ∧
    (∀ first, demoPodWithInits.Spec.InitContainers.head? = some first →
      first.Name ≠ "restic-wait") ∧
    demoAction.Execute idEnv
        { Item := { Object := demoPodWithInits }, Restore := { UID := "restore-7" } }
      = .ok { UpdatedItem := { Object :=
          { demoPodWithInits with Spec := { InitContainers :=
              [idEnv.helper demoAction "restore-7" demoPodWithInits,
                { Name := "setup" }, { Name := "migrate" }] } } } } ∧
    (idEnv.mutated demoAction "restore-7" demoPodWithInits).Spec.InitContainers
      = [idEnv.helper demoAction "restore-7" demoPodWithInits,
          { Name := "setup" }, { Name := "migrate" }] :=
  have hne : idEnv.snapshots demoPodWithInits ≠ [] := by decide
  have hfirst : ∀ first, demoPodWithInits.Spec.InitContainers.head? = some first →
      first.Name ≠ "restic-wait" := by
    intro first h
    cases h
    decide
  have h := execute_prepends_helper idEnv demoAction
    { Item := { Object := demoPodWithInits }, Restore := { UID := "restore-7" } }
    demoPodWithInits rfl hne hfirst
  ⟨rfl, hne, hfirst, (h.1 _).mpr rfl, h.2.1⟩

/-- C3: when the pod has snapshot annotations and its first init container is already
named "restic-wait", `Execute` returns a manifest exactly when the converter encodes
the mutated pod, and the manifest it returns is that encoding; the mutated pod has
as many init containers as the input pod, and the arguments of the first are the
one-element list holding the restore identifier of this call, whatever that
identifier is; with a converter that decodes what it encoded, the returned manifest
decodes to a pod with these init containers. -/
theorem execute_replaces_helper {σ : Type} (env : Env σ)
    (a : ResticRestoreAction) (input : RestoreItemActionExecuteInput σ) (pod : Pod)
    (hdec : env.FromUnstructured input.Item.UnstructuredContent = .ok pod)
    (hne : env.snapshots pod ≠ [])
    (hfirst : pod.Spec.InitContainers.head?.map Container.Name = some "restic-wait") :
    (∀ out, a.Execute env input = .ok out ↔
      env.ToUnstructured (env.mutated a input.Restore.UID pod) = .ok out.UpdatedItem.Object) ∧
    (env.mutated a input.Restore.UID pod).Spec.InitContainers.length
      = pod.Spec.InitContainers.length ∧
    (env.mutated a input.Restore.UID pod).Spec.InitContainers.head?.map Container.Args
      = some [input.Restore.UID] ∧
    ((∀ p res, env.ToUnstructured p = .ok res → env.FromUnstructured res = .ok p) →
      ∀ out, a.Execute env input = .ok out →
        ∃ pod', env.FromUnstructured out.UpdatedItem.UnstructuredContent = .ok pod' ∧
          pod'.Spec.InitContainers.length = pod.Spec.InitContainers.length ∧
          pod'.Spec.InitContainers.head?.map Container.Args = some [input.Restore.UID]) := by
  have hplace := placeInitContainer_replace pod (env.helper a input.Restore.UID pod) hfirst
  have hm : (env.mutated a input.Restore.UID pod).Spec.InitContainers
      = env.helper a input.Restore.UID pod :: pod.Spec.InitContainers.tail := hplace
  have hlen : (env.mutated a input.Restore.UID pod).Spec.InitContainers.length
      = pod.Spec.InitContainers.length := by
    rw [hm]
    cases hcs : pod.Spec.InitContainers with
    | nil => simp [hcs] at hfirst
    | cons first rest => simp
  have hargs : (env.mutated a input.Restore.UID pod).Spec.InitContainers.head?.map Container.Args
      = some [input.Restore.UID] := by
    rw [hm]
    simp [helper_args]
  refine ⟨fun out => execute_ok_iff env a input pod hdec hne out, hlen, hargs, ?_⟩
  intro hround out hout
  exact ⟨_, execute_output_decodes env a input pod hdec hne hround out hout, hlen, hargs⟩

theorem execute_replaces_helper_witness :
    idEnv.FromUnstructured demoPodWithHelper = .ok demoPodWithHelper ∧
    idEnv.snapshots demoPodWithHelper ≠ [] ∧
    demoPodWithHelper.Spec.InitContainers.head?.map Container.Name = some "restic-wait" ∧
    demoPodWithHelper.Spec.InitContainers.head?.map Container.Args = some ["restore-1"] ∧
    demoAction.Execute idEnv
        { Item := { Object := demoPodWithHelper }, Restore := { UID := "restore-7" } }
      = .ok { UpdatedItem := { Object :=
          { demoPodWithHelper with Spec := { InitContainers :=
              [idEnv.helper demoAction "restore-7" demoPodWithHelper, { Name := "setup" }] } } } } ∧
    (idEnv.mutated demoAction "restore-7" demoPodWithHelper).Spec.InitContainers.length = 2 ∧
    (idEnv.mutated demoAction "restore-7" demoPodWithHelper).Spec.InitContainers.head?.map
      Container.Args = some ["restore-7"] :=
  have hne : idEnv.snapshots demoPodWithHelper ≠ [] := by decide
  have h := execute_replaces_helper idEnv demoAction
    { Item := { Object := demoPodWithHelper }, Restore := { UID := "restore-7" } }
    demoPodWithHelper rfl hne rfl
  ⟨rfl, hne, rfl, rfl, (h.1 _).mpr rfl, h.2.1, h.2.2.1⟩

/-- C4: when the pod has snapshot annotations and no init container, `Execute`
returns a manifest exactly when the converter encodes the mutated pod, and the
manifest it returns is that encoding; the mutated pod has exactly one init
container; it is named "restic-wait", its arguments are the restore identifier
alone, and it has one volume mount for each entry of the snapshot annotation set,
named after the volume and mounted at "/restores/" followed by the volume name;
with a converter that decodes what it encoded, the returned manifest decodes to a
pod with this single init container. -/
theorem execute_single_helper {σ : Type} (env : Env σ)
    (a : ResticRestoreAction) (input : RestoreItemActionExecuteInput σ) (pod : Pod)
    (hdec : env.FromUnstructured input.Item.UnstructuredContent = .ok pod)
    (hne : env.snapshots pod ≠ [])
    (hnone : pod.Spec.InitContainers = []) :
    (∀ out, a.Execute env input = .ok out ↔
      env.ToUnstructured (env.mutated a input.Restore.UID pod) = .ok out.UpdatedItem.Object) ∧
    (env.mutated a input.Restore.UID pod).Spec.InitContainers
      = [env.helper a input.Restore.UID pod] ∧
    (env.helper a input.Restore.UID pod).Name = "restic-wait" ∧
    (env.helper a input.Restore.UID pod).Args = [input.Restore.UID] ∧
    (env.helper a input.Restore.UID pod).VolumeMounts
      = (env.range.visit (env.snapshots pod)).map
          (fun kv => { Name := kv.1, MountPath := "/restores/" ++ kv.1 }) ∧
    (env.helper a input.Restore.UID pod).VolumeMounts.length = (env.snapshots pod).length ∧
    ((∀ p res, env.ToUnstructured p = .ok res → env.FromUnstructured res = .ok p) →
      ∀ out, a.Execute env input = .ok out →
        ∃ pod', env.FromUnstructured out.UpdatedItem.UnstructuredContent = .ok pod' ∧
          pod'.Spec.InitContainers = [env.helper a input.Restore.UID pod]) := by
  have hplace := placeInitContainer_prepend pod (env.helper a input.Restore.UID pod)
    (by rw [hnone]; intro first h; cases h)
  have hm : (env.mutated a input.Restore.UID pod).Spec.InitContainers
      = [env.helper a input.Restore.UID pod] := by
    unfold Env.mutated
    rw [hplace, hnone]
  refine ⟨fun out => execute_ok_iff env a input pod hdec hne out, hm, helper_name env a _ pod,
    helper_args env a _ pod, helper_mounts env a _ pod, ?_, ?_⟩
  · rw [helper_mounts, List.length_map, visit_length]
  · intro hround out hout
    exact ⟨_, execute_output_decodes env a input pod hdec hne hround out hout, hm⟩

theorem execute_single_helper_witness :
    idEnv.FromUnstructured demoPod = .ok demoPod ∧
    idEnv.snapshots demoPod = [("data", "snap-123")] ∧
    demoPod.Spec.InitContainers = [] ∧
    demoAction.Execute idEnv { Item := { Object := demoPod }, Restore := { UID := "restore-7" } }
      = .ok { UpdatedItem := { Object :=
          { demoPod with Spec := { InitContainers :=
              [idEnv.helper demoAction "restore-7" demoPod] } } } } ∧
    (idEnv.helper demoAction "restore-7" demoPod).Name = "restic-wait" ∧
    (idEnv.helper demoAction "restore-7" demoPod).Args = ["restore-7"] ∧
    (idEnv.helper demoAction "restore-7" demoPod).VolumeMounts
      = [{ Name := "data", MountPath := "/restores/data" }] :=
  have hne : idEnv.snapshots demoPod ≠ [] := by decide
  have h := execute_single_helper idEnv demoAction
    { Item := { Object := demoPod }, Restore := { UID := "restore-7" } } demoPod rfl hne rfl
  ⟨rfl, rfl, rfl, (h.1 _).mpr rfl, h.2.2.1, h.2.2.2.1, h.2.2.2.2.1⟩

/-- C5, as amended: when the pod has snapshot annotations, `Execute` returns a manifest
exactly when the converter encodes the mutated pod, and the manifest it returns is
that encoding; the init containers of the mutated pod are the freshly built helper,
named "restic-wait" and with the restore identifier as argument, followed by the
init containers `Execute` keeps (all those of the input, or all but the first when
the first is named "restic-wait"); so the number of init containers named
"restic-wait" is one more than their number among the kept ones, and the helper is
the only one exactly when no kept init container bears the name. With a converter
that decodes what it encoded, the returned manifest decodes to a pod with these
init containers. -/
theorem execute_helper_first {σ : Type} (env : Env σ)
    (a : ResticRestoreAction) (input : RestoreItemActionExecuteInput σ) (pod : Pod)
    (hdec : env.FromUnstructured input.Item.UnstructuredContent = .ok pod)
    (hne : env.snapshots pod ≠ []) :
    (∀ out, a.Execute env input = .ok out ↔
      env.ToUnstructured (env.mutated a input.Restore.UID pod) = .ok out.UpdatedItem.Object) ∧
    (env.mutated a input.Restore.UID pod).Spec.InitContainers
      = env.helper a input.Restore.UID pod :: keptInitContainers pod ∧
    env.helper a input.Restore.UID pod
      = buildInitContainer a input.Restore.UID (env.range.visit (env.snapshots pod)) ∧
    (env.helper a input.Restore.UID pod).Name = "restic-wait" ∧
    (env.helper a input.Restore.UID pod).Args = [input.Restore.UID] ∧
    (env.mutated a input.Restore.UID pod).Spec.InitContainers.head?.map Container.Name
      = some "restic-wait" ∧
    helperCount (env.mutated a input.Restore.UID pod).Spec.InitContainers
      = 1 + helperCount (keptInitContainers pod) ∧
    (helperCount (env.mutated a input.Restore.UID pod).Spec.InitContainers = 1 ↔
      ∀ c ∈ keptInitContainers pod, c.Name ≠ "restic-wait") ∧
    ((∀ p res, env.ToUnstructured p = .ok res → env.FromUnstructured res = .ok p) →
      ∀ out, a.Execute env input = .ok out →
        ∃ pod', env.FromUnstructured out.UpdatedItem.UnstructuredContent = .ok pod' ∧
          pod'.Spec.InitContainers = env.helper a input.Restore.UID pod :: keptInitContainers pod ∧
          (helperCount pod'.Spec.InitContainers = 1 ↔
            ∀ c ∈ keptInitContainers pod, c.Name ≠ "restic-wait")) := by
  have hplace := placeInitContainer_kept pod (env.helper a input.Restore.UID pod)
  have hm : (env.mutated a input.Restore.UID pod).Spec.InitContainers
      = env.helper a input.Restore.UID pod :: keptInitContainers pod := hplace
  have hcount : helperCount (env.mutated a input.Restore.UID pod).Spec.InitContainers
      = 1 + helperCount (keptInitContainers pod) := by
    rw [hm]
    unfold helperCount
    rw [List.countP_cons]
    simp [helper_name]
    omega
  have hiff : helperCount (env.mutated a input.Restore.UID pod).Spec.InitContainers = 1 ↔
      ∀ c ∈ keptInitContainers pod, c.Name ≠ "restic-wait" := by
    rw [hcount]
    unfold helperCount
    constructor
    · intro h c hc
      have h0 : List.countP (fun c => decide (c.Name = "restic-wait")) (keptInitContainers pod) = 0 := by
        omega
      rw [List.countP_eq_zero] at h0
      simpa using h0 c hc
    · intro h
      have h0 : List.countP (fun c => decide (c.Name = "restic-wait")) (keptInitContainers pod) = 0 := by
        rw [List.countP_eq_zero]
        intro c hc
        simpa using h c hc
      omega
  refine ⟨fun out => execute_ok_iff env a input pod hdec hne out, hm, rfl,
    helper_name env a _ pod, helper_args env a _ pod, ?_, hcount, hiff, ?_⟩
  · rw [hm]
    simp [helper_name]
  · intro hround out hout
    exact ⟨_, execute_output_decodes env a input pod hdec hne hround out hout, hm, hiff⟩

theorem execute_helper_first_witness :
    idEnv.FromUnstructured demoPodWithHelper = .ok demoPodWithHelper ∧
    idEnv.snapshots demoPodWithHelper ≠ [] ∧
    demoPodWithHelper.Spec.InitContainers
      = [{ Name := "restic-wait", Image := "old", Args := ["restore-1"] }, { Name := "setup" }] ∧
    demoAction.Execute idEnv
        { Item := { Object := demoPodWithHelper }, Restore := { UID := "restore-7" } }
      = .ok { UpdatedItem := { Object :=
          { demoPodWithHelper with Spec := { InitContainers :=
              [ { Name := "restic-wait"
                  Image := "gcr.io/heptio-images/velero-restic-restore-helper:latest"
                  Args := ["restore-7"]
                  Env :=
                    [ { Name := "POD_NAMESPACE"
                        ValueFrom := some { FieldRef := some { FieldPath := "metadata.namespace" } } },
                      { Name := "POD_NAME"
                        ValueFrom := some { FieldRef := some { FieldPath := "metadata.name" } } } ]
                  VolumeMounts := [{ Name := "data", MountPath := "/restores/data" }] },
                { Name := "setup" } ] } } } } ∧
    (idEnv.mutated demoAction "restore-7" demoPodWithHelper).Spec.InitContainers
      = [idEnv.helper demoAction "restore-7" demoPodWithHelper, { Name := "setup" }] ∧
    helperCount (idEnv.mutated demoAction "restore-7" demoPodWithHelper).Spec.InitContainers
      = 1 + helperCount [{ Name := "setup" }] :=
  have hne : idEnv.snapshots demoPodWithHelper ≠ [] := by decide
  have h := execute_helper_first idEnv demoAction
    { Item := { Object := demoPodWithHelper }, Restore := { UID := "restore-7" } }
    demoPodWithHelper rfl hne
  ⟨rfl, hne, rfl, (h.1 _).mpr rfl, h.2.1, h.2.2.2.2.2.2.1⟩

/-- C5, as stated, fails: the pod ns/demo with the init containers "setup" and
"restic-wait", in this order, has snapshot annotations, and the output of `Execute`
has two init containers named "restic-wait". -/
theorem execute_helper_not_unique :
    idEnv.snapshots demoPodLateHelper ≠ [] ∧
    demoAction.Execute idEnv
        { Item := { Object := demoPodLateHelper }, Restore := { UID := "restore-7" } }
      = .ok { UpdatedItem := { Object := idEnv.mutated demoAction "restore-7" demoPodLateHelper } } ∧
    (idEnv.mutated demoAction "restore-7" demoPodLateHelper).Spec.InitContainers.map Container.Name
      = ["restic-wait", "setup", "restic-wait"] ∧
    helperCount (idEnv.mutated demoAction "restore-7" demoPodLateHelper).Spec.InitContainers = 2 :=
  ⟨by decide, rfl, rfl, rfl⟩

/-- C6: with a converter that decodes what it encoded back to the same pod, when
`Execute` with a first restore identifier returns a manifest, `Execute` with a
second identifier on that manifest gives the same result as `Execute` with the
second identifier on the original manifest; with equal identifiers this is
idempotence. The `range` order of the environment is the same on both runs. -/
theorem execute_twice {σ : Type} (env : Env σ) (a : ResticRestoreAction)
    (item : Unstructured σ) (id1 id2 : String) (out1 : RestoreItemActionExecuteOutput σ)
    (hround : ∀ pod res, env.ToUnstructured pod = .ok res → env.FromUnstructured res = .ok pod)
    (hfirst : a.Execute env { Item := item, Restore := { UID := id1 } } = .ok out1) :
    a.Execute env { Item := out1.UpdatedItem, Restore := { UID := id2 } }
      = a.Execute env { Item := item, Restore := { UID := id2 } } := by
  cases hdec : env.FromUnstructured item.UnstructuredContent with
  | error cause =>
    unfold ResticRestoreAction.Execute at hfirst
    simp only [hdec] at hfirst
    cases hfirst
  | ok pod =>
    by_cases hs : env.snapshots pod = []
    · have h1 := execute_of_no_snapshots env a { Item := item, Restore := { UID := id1 } }
        pod hdec hs
      rw [h1] at hfirst
      cases hfirst
      rfl
    · have h1 := execute_of_snapshots env a { Item := item, Restore := { UID := id1 } }
        pod hdec hs
      rw [h1] at hfirst
      have h2 := execute_of_snapshots env a { Item := item, Restore := { UID := id2 } }
        pod hdec hs
      rw [h2]
      unfold encodeOutput at hfirst
      cases henc : env.ToUnstructured (env.mutated a id1 pod) with
      | error cause =>
        simp only [henc] at hfirst
        cases hfirst
      | ok res =>
        simp only [henc] at hfirst
        cases hfirst
        have hdec1 : env.FromUnstructured res = .ok (env.mutated a id1 pod) :=
          hround _ _ henc
        have hs1 : env.snapshots (env.mutated a id1 pod) ≠ [] := by
          rw [show env.snapshots (env.mutated a id1 pod) = env.snapshots pod from
            snapshots_placeInitContainer env pod _]
          exact hs
        have h3 := execute_of_snapshots env a
          { Item := { Object := res }, Restore := { UID := id2 } }
          (env.mutated a id1 pod) hdec1 hs1
        show a.Execute env { Item := { Object := res }, Restore := { UID := id2 } } = _
        rw [h3]
        show encodeOutput env (env.mutated a id2 (env.mutated a id1 pod)) = _
        rw [mutated_mutated]

theorem execute_twice_witness :
    (∀ pod res, idEnv.ToUnstructured pod = .ok res → idEnv.FromUnstructured res = .ok pod) ∧
    demoAction.Execute idEnv { Item := { Object := demoPodWithInits }, Restore := { UID := "restore-1" } }
      = .ok { UpdatedItem := { Object := idEnv.mutated demoAction "restore-1" demoPodWithInits } } ∧
    demoAction.Execute idEnv
        { Item := { Object := idEnv.mutated demoAction "restore-1" demoPodWithInits },
          Restore := { UID := "restore-7" } }
      = demoAction.Execute idEnv
        { Item := { Object := demoPodWithInits }, Restore := { UID := "restore-7" } } :=
  have hround : ∀ pod res, idEnv.ToUnstructured pod = .ok res →
      idEnv.FromUnstructured res = .ok pod := by
    intro pod res h
    cases h
    rfl
  ⟨hround, rfl,
    execute_twice idEnv demoAction { Object := demoPodWithInits } "restore-1" "restore-7"
      { UpdatedItem := { Object := idEnv.mutated demoAction "restore-1" demoPodWithInits } }
      hround rfl⟩

/-- C7: `Execute` fails exactly when decoding the manifest fails, or the pod has
snapshot annotations and encoding the mutated pod fails. The error wraps the cause
with "unable to convert pod from runtime.Unstructured" in the first case, whatever
the annotations, and with "unable to convert pod to runtime.Unstructured" in the
second; the two errors differ, and a failure comes with no manifest. -/
theorem execute_error_iff {σ : Type} (env : Env σ) (a : ResticRestoreAction)
    (input : RestoreItemActionExecuteInput σ) :
    (∀ err, a.Execute env input = .error err ↔
      ((∃ cause, env.FromUnstructured input.Item.UnstructuredContent = .error cause ∧
          err = errors.Wrap cause "unable to convert pod from runtime.Unstructured") ∨
        (∃ pod cause, env.FromUnstructured input.Item.UnstructuredContent = .ok pod ∧
          env.snapshots pod ≠ [] ∧
          env.ToUnstructured (env.mutated a input.Restore.UID pod) = .error cause ∧
          err = errors.Wrap cause "unable to convert pod to runtime.Unstructured"))) ∧
    (∀ cause cause', errors.Wrap cause "unable to convert pod from runtime.Unstructured"
      ≠ errors.Wrap cause' "unable to convert pod to runtime.Unstructured") ∧
    (∀ cause msg, (errors.Wrap cause msg).Error = msg ++ ": " ++ cause.Error) ∧
    (∀ err out, a.Execute env input = .error err → a.Execute env input ≠ .ok out) := by
  refine ⟨?_, ?_, fun _ _ => rfl, ?_⟩
  · intro err
    cases hdec : env.FromUnstructured input.Item.UnstructuredContent with
    | error cause =>
      have hex : a.Execute env input
          = .error (errors.Wrap cause "unable to convert pod from runtime.Unstructured") := by
        unfold ResticRestoreAction.Execute
        simp only [hdec]
      rw [hex]
      constructor
      · intro h
        cases h
        exact Or.inl ⟨cause, rfl, rfl⟩
      · rintro (⟨cause', h, rfl⟩ | ⟨pod, cause', h, _⟩)
        · cases h
          rfl
        · cases h
    | ok pod =>
      by_cases hs : env.snapshots pod = []
      · rw [execute_of_no_snapshots env a input pod hdec hs]
        constructor
        · intro h
          cases h
        · rintro (⟨cause', h, _⟩ | ⟨pod', cause', h, hne, _⟩)
          · cases h
          · cases h
            exact absurd hs hne
      · rw [execute_of_snapshots env a input pod hdec hs]
        unfold encodeOutput
        cases henc : env.ToUnstructured (env.mutated a input.Restore.UID pod) with
        | error cause =>
          simp only
          constructor
          · intro h
            cases h
            exact Or.inr ⟨pod, cause, rfl, hs, henc, rfl⟩
          · rintro (⟨cause', h, _⟩ | ⟨pod', cause', h, _, henc', rfl⟩)
            · cases h
            · cases h
              rw [henc] at henc'
              cases henc'
              rfl
        | ok res =>
          simp only
          constructor
          · intro h
            cases h
          · rintro (⟨cause', h, _⟩ | ⟨pod', cause', h, _, henc', _⟩)
            · cases h
            · cases h
              rw [henc] at henc'
              cases henc'
  · intro cause cause' h
    unfold errors.Wrap at h
    injection h with _ hmsg
    revert hmsg
    decide
  · intro err out h h'
    rw [h] at h'
    cases h'

theorem execute_error_iff_witness :
    strictEnv.snapshots labelledPod = [] ∧
    demoAction.Execute strictEnv { Item := { Object := labelledPod }, Restore := { UID := "restore-7" } }
      = .error (errors.Wrap (.plain "labels are not supported")
          "unable to convert pod from runtime.Unstructured") ∧
    demoAction.Execute strictEnv { Item := { Object := boundPod }, Restore := { UID := "restore-7" } }
      = .error (errors.Wrap (.plain "node name is set")
          "unable to convert pod to runtime.Unstructured") :=
  ⟨rfl,
    ((execute_error_iff strictEnv demoAction
      { Item := { Object := labelledPod }, Restore := { UID := "restore-7" } }).1 _).2
      (Or.inl ⟨.plain "labels are not supported", rfl, rfl⟩),
    ((execute_error_iff strictEnv demoAction
      { Item := { Object := boundPod }, Restore := { UID := "restore-7" } }).1 _).2
      (Or.inr ⟨boundPod, .plain "node name is set", rfl, by decide, rfl, rfl⟩)⟩

/-- C8: when the pod has snapshot annotations, the volume mounts of the helper
correspond one to one to the annotated volume names: each annotated volume name has
exactly one mount, named after it and mounted at "/restores/" followed by the name,
and every mount is the mount of an annotated volume name. -/
theorem execute_mounts {σ : Type} (env : Env σ)
    (a : ResticRestoreAction) (input : RestoreItemActionExecuteInput σ) (pod : Pod)
    (hdec : env.FromUnstructured input.Item.UnstructuredContent = .ok pod)
    (hne : env.snapshots pod ≠ []) :
    a.Execute env input = encodeOutput env (env.mutated a input.Restore.UID pod) ∧
    (env.mutated a input.Restore.UID pod).Spec.InitContainers.head?
      = some (env.helper a input.Restore.UID pod) ∧
    (∀ v ∈ (env.snapshots pod).keys,
      (env.helper a input.Restore.UID pod).VolumeMounts.filter (fun m => m.Name = v)
        = [{ Name := v, MountPath := "/restores/" ++ v }]) ∧
    (∀ m ∈ (env.helper a input.Restore.UID pod).VolumeMounts,
      m.Name ∈ (env.snapshots pod).keys ∧
      m = { Name := m.Name, MountPath := "/restores/" ++ m.Name }) ∧
    (env.helper a input.Restore.UID pod).VolumeMounts.length = (env.snapshots pod).keys.length := by
  have hmounts : (env.helper a input.Restore.UID pod).VolumeMounts
      = (env.range.visit (env.snapshots pod)).keys.map restoreMount := by
    rw [helper_mounts, GoMap.keys, List.map_map]
    rfl
  have hperm := visit_keys_perm env.range (env.snapshots pod)
  refine ⟨execute_of_snapshots env a input pod hdec hne, ?_, ?_, ?_, ?_⟩
  · unfold Env.mutated
    rw [placeInitContainer_kept]
    rfl
  · intro v hv
    rw [hmounts]
    exact filter_mounts_of_mem _ v
      (hperm.nodup_iff.mpr (snapshots_keys_nodup env pod)) (hperm.mem_iff.mpr hv)
  · intro m hm
    rw [hmounts, List.mem_map] at hm
    obtain ⟨v, hv, rfl⟩ := hm
    exact ⟨hperm.mem_iff.mp hv, rfl⟩
  · rw [hmounts, List.length_map]
    exact hperm.length_eq

theorem execute_mounts_witness :
    idEnv.FromUnstructured demoPodTwoVolumes = .ok demoPodTwoVolumes ∧
    idEnv.snapshots demoPodTwoVolumes = [("data", "snap-123"), ("logs", "snap-456")] ∧
    (idEnv.helper demoAction "restore-7" demoPodTwoVolumes).VolumeMounts
      = [{ Name := "data", MountPath := "/restores/data" },
          { Name := "logs", MountPath := "/restores/logs" }] ∧
    (idEnv.helper demoAction "restore-7" demoPodTwoVolumes).VolumeMounts.length = 2 :=
  have hne : idEnv.snapshots demoPodTwoVolumes ≠ [] := by decide
  ⟨rfl, rfl, rfl,
    (execute_mounts idEnv demoAction
      { Item := { Object := demoPodTwoVolumes }, Restore := { UID := "restore-7" } }
      demoPodTwoVolumes rfl hne).2.2.2.2⟩

/-- C9: `AppliesTo` never fails and returns the same selector for every action: the
included resources are the one entry "pods", and no other inclusion or exclusion
is set. -/
theorem appliesTo_pods (a b : ResticRestoreAction) :
    a.AppliesTo = .ok { IncludedResources := ["pods"] } ∧
    a.AppliesTo = b.AppliesTo ∧
    (∀ err, a.AppliesTo ≠ .error err) ∧
    (∀ sel, a.AppliesTo = .ok sel →
      sel.IncludedResources = ["pods"] ∧ sel.ExcludedResources = [] ∧
      sel.IncludedNamespaces = [] ∧ sel.ExcludedNamespaces = [] ∧ sel.LabelSelector = "") := by
  refine ⟨rfl, rfl, ?_, ?_⟩
  · intro err h
    cases h
  · intro sel h
    cases h
    exact ⟨rfl, rfl, rfl, rfl, rfl⟩

/-- C10: the helper image is "gcr.io/heptio-images/velero-restic-restore-helper", then
":", then the build version, or "latest" when the build version is empty; the action
is constructed with that image, and the helper `Execute` puts first in a pod with
snapshot annotations carries the image of the action. -/
theorem helper_image {σ : Type} (Version : String) (env : Env σ)
    (a : ResticRestoreAction) (input : RestoreItemActionExecuteInput σ) (pod : Pod)
    (hdec : env.FromUnstructured input.Item.UnstructuredContent = .ok pod)
    (hne : env.snapshots pod ≠ []) :
    initContainerImage Version
      = "gcr.io/heptio-images/velero-restic-restore-helper" ++ ":" ++
          (if Version = "" then "latest" else Version) ∧
    (NewResticRestoreAction Version).initContainerImage = initContainerImage Version ∧
    a.Execute env input = encodeOutput env (env.mutated a input.Restore.UID pod) ∧
    (env.mutated a input.Restore.UID pod).Spec.InitContainers.head?.map Container.Image
      = some a.initContainerImage := by
  refine ⟨?_, rfl, execute_of_snapshots env a input pod hdec hne, ?_⟩
  · unfold initContainerImage
    rw [String.append_assoc]
    rfl
  · unfold Env.mutated
    rw [placeInitContainer_kept]
    unfold Env.helper
    rw [buildInitContainer_eq]
    rfl

theorem helper_image_witness :
    idEnv.FromUnstructured demoPod = .ok demoPod ∧
    idEnv.snapshots demoPod ≠ [] ∧
    initContainerImage "v0.11.0" = "gcr.io/heptio-images/velero-restic-restore-helper:v0.11.0" ∧
    initContainerImage "" = "gcr.io/heptio-images/velero-restic-restore-helper:latest" ∧
    (idEnv.mutated (NewResticRestoreAction "v0.11.0") "restore-7"
        demoPod).Spec.InitContainers.head?.map Container.Image
      = some (NewResticRestoreAction "v0.11.0").initContainerImage :=
  have hne : idEnv.snapshots demoPod ≠ [] := by decide
  ⟨rfl, hne, rfl, rfl,
    (helper_image "v0.11.0" idEnv (NewResticRestoreAction "v0.11.0")
      { Item := { Object := demoPod }, Restore := { UID := "restore-7" } } demoPod rfl hne).2.2.2⟩

/-- C11: when the pod has snapshot annotations, the helper has exactly two environment
variables, in this order: POD_NAMESPACE with a field reference to
"metadata.namespace" and POD_NAME with a field reference to "metadata.name", none
with a literal value; the environment is the same for every other pod, action,
restore identifier and environment, so it does not depend on the namespace or the
name of the pod. -/
theorem helper_env {σ : Type} (env : Env σ)
    (a : ResticRestoreAction) (input : RestoreItemActionExecuteInput σ) (pod : Pod)
    (hdec : env.FromUnstructured input.Item.UnstructuredContent = .ok pod)
    (hne : env.snapshots pod ≠ []) :
    a.Execute env input = encodeOutput env (env.mutated a input.Restore.UID pod) ∧
    (env.mutated a input.Restore.UID pod).Spec.InitContainers.head?.map Container.Env
      = some
        [ { Name := "POD_NAMESPACE", Value := ""
            ValueFrom := some
              { FieldRef := some { APIVersion := "", FieldPath := "metadata.namespace" }
                ResourceFieldRef := none, ConfigMapKeyRef := none, SecretKeyRef := none } },
          { Name := "POD_NAME", Value := ""
            ValueFrom := some
              { FieldRef := some { APIVersion := "", FieldPath := "metadata.name" }
                ResourceFieldRef := none, ConfigMapKeyRef := none, SecretKeyRef := none } } ] ∧
    (∀ e ∈ (env.helper a input.Restore.UID pod).Env, e.Value = "") ∧
    (∀ (τ : Type) (env' : Env τ) (a' : ResticRestoreAction) (restoreUID' : String) (pod' : Pod),
      (env'.helper a' restoreUID' pod').Env = (env.helper a input.Restore.UID pod).Env) := by
  refine ⟨execute_of_snapshots env a input pod hdec hne, ?_, ?_, ?_⟩
  · rw [mutated_head, helper_eq]
    rfl
  · intro e he
    rw [helper_eq] at he
    simp only [List.mem_cons, List.mem_singleton, List.not_mem_nil, or_false] at he
    rcases he with rfl | rfl <;> rfl
  · intro τ env' a' restoreUID' pod'
    rw [helper_eq, helper_eq]

theorem helper_env_witness :
    idEnv.FromUnstructured demoPod = .ok demoPod ∧
    idEnv.snapshots demoPod ≠ [] ∧
    (idEnv.helper demoAction "restore-7" demoPod).Env.map EnvVar.Name
      = ["POD_NAMESPACE", "POD_NAME"] ∧
    (strictEnv.helper (NewResticRestoreAction "v0.11.0") "restore-1" boundPod).Env
      = (idEnv.helper demoAction "restore-7" demoPod).Env :=
  have hne : idEnv.snapshots demoPod ≠ [] := by decide
  ⟨rfl, hne, rfl,
    (helper_env idEnv demoAction
      { Item := { Object := demoPod }, Restore := { UID := "restore-7" } } demoPod rfl hne).2.2.2
      Pod strictEnv (NewResticRestoreAction "v0.11.0") "restore-1" boundPod⟩

/-- C12: when the pod has snapshot annotations, whatever its init containers,
`Execute` returns a manifest exactly when the converter encodes the mutated pod, and
the manifest it returns is that encoding; the first init container of the mutated
pod is the freshly built helper: the reserved name, the image of the action, the
restore identifier as only argument, the two environment declarations, the mounts of
the annotated volumes, and every other field at its zero value. When the first init
container was already named "restic-wait", the result of `Execute` is the same for
any other content of that first init container: nothing of it survives. With a
converter that decodes what it encoded, the first init container of the pod the
returned manifest decodes to is this helper. -/
theorem execute_fresh_helper {σ : Type} (env : Env σ)
    (a : ResticRestoreAction) (input : RestoreItemActionExecuteInput σ) (pod : Pod)
    (hdec : env.FromUnstructured input.Item.UnstructuredContent = .ok pod)
    (hne : env.snapshots pod ≠ []) :
    (∀ out, a.Execute env input = .ok out ↔
      env.ToUnstructured (env.mutated a input.Restore.UID pod) = .ok out.UpdatedItem.Object) ∧
    (env.mutated a input.Restore.UID pod).Spec.InitContainers.head?
      = some
        { Name := "restic-wait"
          Image := a.initContainerImage
          Command := []
          Args := [input.Restore.UID]
          WorkingDir := ""
          Env :=
            [ { Name := "POD_NAMESPACE"
                ValueFrom := some { FieldRef := some { FieldPath := "metadata.namespace" } } },
              { Name := "POD_NAME"
                ValueFrom := some { FieldRef := some { FieldPath := "metadata.name" } } } ]
          VolumeMounts := (env.range.visit (env.snapshots pod)).map
            (fun kv => { Name := kv.1, MountPath := "/restores/" ++ kv.1 }) } ∧
    (∀ old rest, pod.Spec.InitContainers = old :: rest → old.Name = "restic-wait" →
      (env.mutated a input.Restore.UID pod).Spec.InitContainers
          = env.helper a input.Restore.UID pod :: rest ∧
      ∀ old' : Container, old'.Name = "restic-wait" →
        env.mutated a input.Restore.UID
            { pod with Spec := { pod.Spec with InitContainers := old' :: rest } }
          = env.mutated a input.Restore.UID pod ∧
        ∀ input' : RestoreItemActionExecuteInput σ,
          env.FromUnstructured input'.Item.UnstructuredContent
            = .ok { pod with Spec := { pod.Spec with InitContainers := old' :: rest } } →
          input'.Restore = input.Restore →
          a.Execute env input' = a.Execute env input) ∧
    ((∀ p res, env.ToUnstructured p = .ok res → env.FromUnstructured res = .ok p) →
      ∀ out, a.Execute env input = .ok out →
        ∃ pod', env.FromUnstructured out.UpdatedItem.UnstructuredContent = .ok pod' ∧
          pod'.Spec.InitContainers.head?
            = some
              { Name := "restic-wait"
                Image := a.initContainerImage
                Args := [input.Restore.UID]
                Env :=
                  [ { Name := "POD_NAMESPACE"
                      ValueFrom := some { FieldRef := some { FieldPath := "metadata.namespace" } } },
                    { Name := "POD_NAME"
                      ValueFrom := some { FieldRef := some { FieldPath := "metadata.name" } } } ]
                VolumeMounts := (env.range.visit (env.snapshots pod)).map
                  (fun kv => { Name := kv.1, MountPath := "/restores/" ++ kv.1 }) }) := by
  have hhead : (env.mutated a input.Restore.UID pod).Spec.InitContainers.head?
      = some
        { Name := "restic-wait"
          Image := a.initContainerImage
          Args := [input.Restore.UID]
          Env :=
            [ { Name := "POD_NAMESPACE"
                ValueFrom := some { FieldRef := some { FieldPath := "metadata.namespace" } } },
              { Name := "POD_NAME"
                ValueFrom := some { FieldRef := some { FieldPath := "metadata.name" } } } ]
          VolumeMounts := (env.range.visit (env.snapshots pod)).map
            (fun kv => { Name := kv.1, MountPath := "/restores/" ++ kv.1 }) } := by
    rw [mutated_head, helper_eq]
    rfl
  refine ⟨fun out => execute_ok_iff env a input pod hdec hne out, hhead, ?_, ?_⟩
  · intro old rest hcs hold
    have hkept : keptInitContainers pod = rest := by
      simp [keptInitContainers, hcs, hold]
    constructor
    · unfold Env.mutated
      rw [placeInitContainer_kept, hkept]
    · intro old' hold'
      have hkept' : keptInitContainers
          { pod with Spec := { pod.Spec with InitContainers := old' :: rest } } = rest := by
        simp [keptInitContainers, hold']
      have hhelper : env.helper a input.Restore.UID
          { pod with Spec := { pod.Spec with InitContainers := old' :: rest } }
          = env.helper a input.Restore.UID pod := rfl
      have hsame : env.mutated a input.Restore.UID
            { pod with Spec := { pod.Spec with InitContainers := old' :: rest } }
          = env.mutated a input.Restore.UID pod := by
        unfold Env.mutated
        rw [hhelper, placeInitContainer_eq, placeInitContainer_eq, hkept, hkept']
      refine ⟨hsame, ?_⟩
      intro input' hdec' hrestore
      have hne' : env.snapshots
          { pod with Spec := { pod.Spec with InitContainers := old' :: rest } } ≠ [] := hne
      rw [execute_of_snapshots env a input' _ hdec' hne',
        execute_of_snapshots env a input pod hdec hne, hrestore, hsame]
  · intro hround out hout
    exact ⟨_, execute_output_decodes env a input pod hdec hne hround out hout, hhead⟩

theorem execute_fresh_helper_witness :
    idEnv.FromUnstructured demoPodWithHelper = .ok demoPodWithHelper ∧
    idEnv.snapshots demoPodWithHelper ≠ [] ∧
    demoPodWithHelper.Spec.InitContainers
      = [{ Name := "restic-wait", Image := "old", Args := ["restore-1"] }, { Name := "setup" }] ∧
    demoAction.Execute idEnv
        { Item := { Object := demoPodWithHelper }, Restore := { UID := "restore-7" } }
      = .ok { UpdatedItem :=
          { Object := (idEnv.mutated demoAction "restore-7" demoPodWithHelper) } } ∧
    (idEnv.mutated demoAction "restore-7" demoPodWithHelper).Spec.InitContainers.head?
      = some
        { Name := "restic-wait"
          Image := "gcr.io/heptio-images/velero-restic-restore-helper:latest"
          Args := ["restore-7"]
          Env :=
            [ { Name := "POD_NAMESPACE"
                ValueFrom := some { FieldRef := some { FieldPath := "metadata.namespace" } } },
              { Name := "POD_NAME"
                ValueFrom := some { FieldRef := some { FieldPath := "metadata.name" } } } ]
          VolumeMounts := [{ Name := "data", MountPath := "/restores/data" }] } :=
  have hne : idEnv.snapshots demoPodWithHelper ≠ [] := by decide
  have h := execute_fresh_helper idEnv demoAction
    { Item := { Object := demoPodWithHelper }, Restore := { UID := "restore-7" } }
    demoPodWithHelper rfl hne
  ⟨rfl, hne, rfl, (h.1 _).mpr rfl, h.2.1⟩

/-- C13: when the pod has snapshot annotations and its first init container is already
named "restic-wait", the pod `Execute` encodes differs from the input pod at
position 0 of the init containers only: every init container at position 1 or
later is at the same position, unchanged, and no position is added or removed; the
manifest `Execute` returns is the encoding of that pod by the converter. -/
theorem execute_replaces_position_zero_only {σ : Type} (env : Env σ)
    (a : ResticRestoreAction) (input : RestoreItemActionExecuteInput σ) (pod : Pod)
    (hdec : env.FromUnstructured input.Item.UnstructuredContent = .ok pod)
    (hne : env.snapshots pod ≠ [])
    (hfirst : pod.Spec.InitContainers.head?.map Container.Name = some "restic-wait") :
    a.Execute env input = encodeOutput env (env.mutated a input.Restore.UID pod) ∧
    (∀ i, 1 ≤ i →
      (env.mutated a input.Restore.UID pod).Spec.InitContainers[i]?
        = pod.Spec.InitContainers[i]?) ∧
    (env.mutated a input.Restore.UID pod).Spec.InitContainers.tail
      = pod.Spec.InitContainers.tail ∧
    (env.mutated a input.Restore.UID pod).Spec.InitContainers.length
      = pod.Spec.InitContainers.length ∧
    (∀ out, a.Execute env input = .ok out ↔
      env.ToUnstructured (env.mutated a input.Restore.UID pod) = .ok out.UpdatedItem.Object) := by
  have hplace := placeInitContainer_replace pod (env.helper a input.Restore.UID pod) hfirst
  have hm : (env.mutated a input.Restore.UID pod).Spec.InitContainers
      = env.helper a input.Restore.UID pod :: pod.Spec.InitContainers.tail := hplace
  refine ⟨execute_of_snapshots env a input pod hdec hne, ?_, ?_, ?_,
    fun out => execute_ok_iff env a input pod hdec hne out⟩
  · intro i hi
    rw [hm]
    cases hcs : pod.Spec.InitContainers with
    | nil => simp [hcs] at hfirst
    | cons first rest =>
      obtain ⟨j, rfl⟩ : ∃ j, i = j + 1 := ⟨i - 1, by omega⟩
      simp
  · rw [hm]
    rfl
  · rw [hm]
    cases hcs : pod.Spec.InitContainers with
    | nil => simp [hcs] at hfirst
    | cons first rest => simp

theorem execute_replaces_position_zero_only_witness :
    idEnv.FromUnstructured demoPodWithHelper = .ok demoPodWithHelper ∧
    idEnv.snapshots demoPodWithHelper ≠ [] ∧
    demoPodWithHelper.Spec.InitContainers.head?.map Container.Name = some "restic-wait" ∧
    (idEnv.mutated demoAction "restore-7" demoPodWithHelper).Spec.InitContainers[1]?
      = some { Name := "setup" } ∧
    (idEnv.mutated demoAction "restore-7" demoPodWithHelper).Spec.InitContainers[1]?
      = demoPodWithHelper.Spec.InitContainers[1]? ∧
    demoAction.Execute idEnv
        { Item := { Object := demoPodWithHelper }, Restore := { UID := "restore-7" } }
      = .ok { UpdatedItem := { Object :=
          { demoPodWithHelper with Spec := { InitContainers :=
              [idEnv.helper demoAction "restore-7" demoPodWithHelper, { Name := "setup" }] } } } } :=
  have hne : idEnv.snapshots demoPodWithHelper ≠ [] := by decide
  have h := execute_replaces_position_zero_only idEnv demoAction
    { Item := { Object := demoPodWithHelper }, Restore := { UID := "restore-7" } }
    demoPodWithHelper rfl hne rfl
  ⟨rfl, hne, rfl, rfl, h.2.1 1 (Nat.le_refl 1), (h.2.2.2.2 _).mpr rfl⟩

/-- C14: when the pod has snapshot annotations, the pod `Execute` encodes is the decoded
input pod with another init container sequence and nothing else changed: the
metadata (namespace, name, annotations, labels), the containers, the volumes and
the remaining fields of the spec are those of the input pod. -/
theorem execute_frame {σ : Type} (env : Env σ)
    (a : ResticRestoreAction) (input : RestoreItemActionExecuteInput σ) (pod : Pod)
    (hdec : env.FromUnstructured input.Item.UnstructuredContent = .ok pod)
    (hne : env.snapshots pod ≠ []) :
    a.Execute env input = encodeOutput env (env.mutated a input.Restore.UID pod) ∧
    env.mutated a input.Restore.UID pod
      = { pod with Spec := { pod.Spec with
            InitContainers := (env.mutated a input.Restore.UID pod).Spec.InitContainers } } ∧
    (env.mutated a input.Restore.UID pod).ObjectMeta = pod.ObjectMeta ∧
    (env.mutated a input.Restore.UID pod).ObjectMeta.Namespace = pod.ObjectMeta.Namespace ∧
    (env.mutated a input.Restore.UID pod).ObjectMeta.Name = pod.ObjectMeta.Name ∧
    (env.mutated a input.Restore.UID pod).ObjectMeta.Annotations = pod.ObjectMeta.Annotations ∧
    (env.mutated a input.Restore.UID pod).Spec.Containers = pod.Spec.Containers ∧
    (env.mutated a input.Restore.UID pod).Spec.Volumes = pod.Spec.Volumes ∧
    (env.mutated a input.Restore.UID pod).Spec.NodeName = pod.Spec.NodeName := by
  have hm : env.mutated a input.Restore.UID pod
      = { pod with Spec := { pod.Spec with
            InitContainers := env.helper a input.Restore.UID pod :: keptInitContainers pod } } :=
    placeInitContainer_eq pod _
  refine ⟨execute_of_snapshots env a input pod hdec hne, ?_, ?_, ?_, ?_, ?_, ?_, ?_, ?_⟩
  · rw [hm]
  all_goals rw [hm]

theorem execute_frame_witness :
    idEnv.FromUnstructured demoPodWithInits = .ok demoPodWithInits ∧
    idEnv.snapshots demoPodWithInits ≠ [] ∧
    (idEnv.mutated demoAction "restore-7" demoPodWithInits).Spec.InitContainers
      ≠ demoPodWithInits.Spec.InitContainers ∧
    (idEnv.mutated demoAction "restore-7" demoPodWithInits).ObjectMeta
      = { Name := "demo", Namespace := "ns"
          Annotations := [("volumes.snapshot/data", "snap-123")] } ∧
    (idEnv.mutated demoAction "restore-7" demoPodWithInits).ObjectMeta
      = demoPodWithInits.ObjectMeta :=
  have hne : idEnv.snapshots demoPodWithInits ≠ [] := by decide
  ⟨rfl, hne, by decide, rfl,
    (execute_frame idEnv demoAction
      { Item := { Object := demoPodWithInits }, Restore := { UID := "restore-7" } }
      demoPodWithInits rfl hne).2.2.1⟩

/-- C15: the mount path construction is injective: two volume names with the same
mount path "/restores/" followed by the name are equal. So when the volume names
visited by the `range` are pairwise distinct, no two volume mounts of the init
container built from them share a mount path or a name; the names of a snapshot
annotation set being distinct, this holds of the helper of every pod. -/
theorem mount_paths_distinct {σ : Type} (env : Env σ) (a : ResticRestoreAction)
    (restoreUID : String) (pod : Pod) (visited : GoMap)
    (hdistinct : visited.keys.Nodup) :
    (∀ v1 v2 : String, (restoreMount v1).MountPath = (restoreMount v2).MountPath → v1 = v2) ∧
    (∀ v1 v2 : String, "/restores/" ++ v1 = "/restores/" ++ v2 → v1 = v2) ∧
    ((buildInitContainer a restoreUID visited).VolumeMounts.map VolumeMount.MountPath).Nodup ∧
    ((buildInitContainer a restoreUID visited).VolumeMounts.map VolumeMount.Name).Nodup ∧
    ((env.helper a restoreUID pod).VolumeMounts.map VolumeMount.MountPath).Nodup ∧
    ((env.helper a restoreUID pod).VolumeMounts.map VolumeMount.Name).Nodup := by
  have hpath : ∀ keys : List String, keys.Nodup →
      ((keys.map restoreMount).map VolumeMount.MountPath).Nodup := by
    intro keys hk
    rw [List.map_map]
    exact hk.map restoreMount_path_injective
  have hname : ∀ keys : List String, keys.Nodup →
      ((keys.map restoreMount).map VolumeMount.Name).Nodup := by
    intro keys hk
    rw [List.map_map]
    exact hk.map (fun v1 v2 h => h)
  have hvisit : (env.range.visit (env.snapshots pod)).keys.Nodup :=
    (visit_keys_perm env.range (env.snapshots pod)).nodup_iff.mpr (snapshots_keys_nodup env pod)
  refine ⟨fun v1 v2 h => restoreMount_path_injective h,
    fun v1 v2 h => append_left_cancel_string "/restores/" v1 v2 h, ?_, ?_, ?_, ?_⟩
  · rw [buildInitContainer_mounts]
    exact hpath _ hdistinct
  · rw [buildInitContainer_mounts]
    exact hname _ hdistinct
  · unfold Env.helper
    rw [buildInitContainer_mounts]
    exact hpath _ hvisit
  · unfold Env.helper
    rw [buildInitContainer_mounts]
    exact hname _ hvisit

theorem mount_paths_distinct_witness :
    GoMap.keys [("data", "snap-123"), ("logs", "snap-456")] = ["data", "logs"] ∧
    (GoMap.keys [("data", "snap-123"), ("logs", "snap-456")]).Nodup ∧
    (buildInitContainer demoAction "restore-7"
        [("data", "snap-123"), ("logs", "snap-456")]).VolumeMounts.map VolumeMount.MountPath
      = ["/restores/data", "/restores/logs"] ∧
    ((buildInitContainer demoAction "restore-7"
        [("data", "snap-123"), ("logs", "snap-456")]).VolumeMounts.map
      VolumeMount.MountPath).Nodup :=
  have hdistinct : (GoMap.keys [("data", "snap-123"), ("logs", "snap-456")]).Nodup := by decide
  ⟨rfl, hdistinct, rfl,
    (mount_paths_distinct idEnv demoAction "restore-7" demoPodTwoVolumes
      [("data", "snap-123"), ("logs", "snap-456")] hdistinct).2.2.1⟩

end ResticRestore
